import Mathlib

/-!
Verification of the crawl-and-extract pipeline of the Simplify scraper
(`parse_simplify.py`, `create_dashboard.py`).

The embedding below mirrors the Python source function by function:

* `extractId` — the `re.search(r'/([0-9a-fA-F-]{36})/', url)` identifier
  lookup of `grab_offer_info` (line 138), including the leftmost-match
  search and the trailing `.strip('/')`.
* `normalizeFundingText` / `extractFundingOf` — lines 183–206.  Python
  float arithmetic is modelled exactly: a parsed decimal is carried as
  `num / 10 ^ scale` and the truncating `int(...)` becomes a floor
  division; every value the concrete claims touch is exactly
  representable in a float, so the two agree there.
* `buildJobData` — the `job_data` construction of `grab_offer_info`
  (lines 138–168), with the same left-to-right evaluation (and therefore
  exception) order as the Python dict literal.
* `exec_insert` / `commitDB` / `rollbackDB` / `appendStore` — the
  database interaction of lines 171–179.  The `INSERT_DATA_QUERY` text
  and the `job_offers` schema live in `config.py`, which is not part of
  the crawled sources, so those two are modelled from the spec (a table
  keyed uniquely by `id`, uniqueness violations raised as a distinct
  error, commands refused while a transaction is aborted).
* `processWindow` / `crawlStep` — the body of the `while True:` loop of
  `scroll_and_load_jobs` (lines 89–122).
* `loginLoop` — the `while True:` login wait of `login` (lines 57–68).

Raised Python exceptions are represented by `Except.error` carrying the
exception's kind; values the code computes normally are `Except.ok`.
-/

namespace SimplifyScraper

/-- The Python exception kinds the embedded code can raise:
`AttributeError` (calling a method on the `None` a failed lookup
returned), `IndexError` (subscript past the end of a list),
`ValueError` (a failed `float`/`int` conversion), `TypeError`
(subscripting `None`), the psycopg2 `UniqueViolation`, and psycopg2's
`InFailedSqlTransaction` for statements issued on an aborted
transaction. -/
inductive PyErr
  | attributeError
  | indexError
  | valueError
  | typeError
  | uniqueViolation
  | inFailedTransaction
  deriving DecidableEq

/-! ## Identifier extraction (line 138)

`re.search(r'/([0-9a-fA-F-]{36})/', url).group(1).strip('/')`: scan for
the leftmost position where a `/` is followed by exactly 36 characters
drawn from `0-9 a-f A-F -` and then another `/`; the group is those 36
characters. -/

/-- Membership in the regex character class `[0-9a-fA-F-]`. -/
def isHexDashChar (c : Char) : Bool :=
  (48 ≤ c.toNat && c.toNat ≤ 57) ||
  (97 ≤ c.toNat && c.toNat ≤ 102) ||
  (65 ≤ c.toNat && c.toNat ≤ 70) ||
  c == '-'

/-- Try to read `count` class characters followed by `/`; `acc` holds the
characters read so far, in reverse. -/
def matchBody : List Char → Nat → List Char → Option (List Char)
  | cs, 0, acc =>
    match cs with
    | '/' :: _ => some acc.reverse
    | _ => none
  | c :: cs, count + 1, acc =>
    if isHexDashChar c then matchBody cs count (c :: acc) else none
  | [], _ + 1, _ => none

/-- Try to match `/[0-9a-fA-F-]{36}/` starting exactly here. -/
def matchUuidAt : List Char → Option (List Char)
  | '/' :: rest => matchBody rest 36 []
  | _ => none

/-- Leftmost match: try each start position left to right, as `re.search`
does. -/
def searchUuid : List Char → Option (List Char)
  | [] => none
  | c :: cs =>
    match matchUuidAt (c :: cs) with
    | some g => some g
    | none => searchUuid cs

/-- Python `str.strip('/')`: remove `/` characters from both ends. -/
def stripSlashes (s : String) : String :=
  ⟨((s.data.dropWhile (· == '/')).reverse.dropWhile (· == '/')).reverse⟩

/-- The matched group, or `none` when `re.search` returns `None` (in which
case the Python line raises `AttributeError` on `.group`). -/
def extractId (url : String) : Option String :=
  (searchUuid url.data).map fun g => stripSlashes ⟨g⟩

/-! ## Python numeric conversions -/

/-- Accumulate decimal digits; `none` as soon as a non-digit appears. -/
def digitsToNatGo : List Char → Nat → Option Nat
  | [], acc => some acc
  | c :: cs, acc =>
    if c.isDigit then digitsToNatGo cs (acc * 10 + (c.toNat - 48)) else none

/-- A non-empty all-digit string's value, else `none`. -/
def digitsToNat : List Char → Option Nat
  | [] => none
  | c :: cs => digitsToNatGo (c :: cs) 0

/-- Remove leading and trailing whitespace. -/
def trimWs (cs : List Char) : List Char :=
  ((cs.dropWhile Char.isWhitespace).reverse.dropWhile Char.isWhitespace).reverse

/-- Python `int(str)`: surrounding whitespace stripped, an optional sign,
then decimal digits; anything else raises `ValueError` (here `none`).
Digit-group underscores are not modelled — no claim feeds them in. -/
def pyIntParse (s : String) : Option Int :=
  match trimWs s.data with
  | '-' :: cs => (digitsToNat cs).map fun n => -(n : Int)
  | '+' :: cs => (digitsToNat cs).map fun n => (n : Int)
  | cs => (digitsToNat cs).map fun n => (n : Int)

/-- All characters are decimal digits. -/
def allDigits (cs : List Char) : Bool := cs.all Char.isDigit

/-- The value of a digit list (0 for the empty list). -/
def digitsVal (cs : List Char) : Nat :=
  cs.foldl (fun a c => a * 10 + (c.toNat - 48)) 0

/-- Python `float(str)` restricted to the plain-decimal forms
`digits`, `digits.digits`, `.digits`, `digits.` that the cleaned funding
strings of this scraper can produce; exponent/`inf`/`nan` spellings are
not modelled.  The result `(num, scale)` stands for the exact value
`num / 10 ^ scale`; `none` stands for the `ValueError` Python raises. -/
def pyDecimalParse (s : String) : Option (Nat × Nat) :=
  match s.data.splitOn '.' with
  | [a] =>
    if allDigits a && !a.isEmpty then some (digitsVal a, 0) else none
  | [a, b] =>
    if allDigits a && allDigits b && !(a.isEmpty && b.isEmpty) then
      some (digitsVal a * 10 ^ b.length + digitsVal b, b.length)
    else none
  | _ => none

/-! ## Funding normalisation (`extract_funding`, lines 183–206) -/

/-- Line 195: keep only alphanumerics and the decimal point. -/
def cleanFunding (s : String) : String :=
  ⟨s.data.filter fun c => c.isAlphanum || c == '.'⟩

/-- Lines 191 and 198: the `funding_factors` dict in its (insertion)
iteration order, each suffix with its multiplier `10^3`, `10^6`, `10^9`. -/
def fundingFactors : List (Char × Nat) :=
  [('K', 1000), ('M', 1000000), ('B', 1000000000)]

/-- Lines 198–201: the first suffix of `K`, `M`, `B` contained in the
cleaned text wins; `str.replace(suffix, '')` removes every occurrence of
that suffix character. -/
def findSuffix : List (Char × Nat) → String → Option (String × Nat)
  | [], _ => none
  | (suf, mult) :: rest, s =>
    if s.data.contains suf then some (⟨s.data.filter (· != suf)⟩, mult)
    else findSuffix rest s

/-- Lines 195–206 of `extract_funding`, as a function of the funding
heading's text.  With a suffix the code runs
`int(float(funding) * multiplier)`: the parsed decimal `num / 10^scale`
times the multiplier, truncated — on the non-negative values in play
that is exactly the floor division `num * mult / 10 ^ scale`.  An
unparsable remainder raises `ValueError`, and nothing catches it there;
without a suffix the `int(funding)` call sits inside
`try/except (TypeError, ValueError)` and failure becomes `None`. -/
def normalizeFundingText (t : String) : Except PyErr (Option Int) :=
  let funding := cleanFunding t
  match findSuffix fundingFactors funding with
  | some (rest, mult) =>
    match pyDecimalParse rest with
    | none => .error .valueError
    | some (num, scale) => .ok (some ((num * mult / 10 ^ scale : Nat) : Int))
  | none => .ok (pyIntParse funding)

/-- Lines 190–206 of `extract_funding` over the detail fragment: the
`div.py-5 h1` headings; an empty selection returns `None`, otherwise the
second heading (`funding_elements[1]`, an uncaught `IndexError` when
there is only one) is normalised. -/
def extractFundingOf (py5H1 : List String) : Except PyErr (Option Int) :=
  if py5H1.isEmpty then .ok none
  else
    match py5H1[1]? with
    | none => .error .indexError
    | some t => normalizeFundingText t

/-! ## Data model -/

/-- The value the Python code stores under `'experience_level'`: the list
comprehension over the `div.bg-primary-light` badges when any are
present, and otherwise the *bare string* `'Intern'` — the two arms of
the conditional expression produce values of different shapes, which the
embedding keeps apart. -/
inductive ExperienceLevel
  | tags (l : List String)
  | single (s : String)
  deriving DecidableEq

/-- One scraped job offer: the `job_data` dict of `grab_offer_info`. -/
structure JobListing where
  id : String
  position_name : String
  company_name : String
  locations : String
  experience_level : ExperienceLevel
  desired_skills : List String
  categories : List String
  employee_count : String
  company_website : String
  company_stage : Option String
  company_funding : Option Int
  foundation_year : Option Int
  company_industries : List String
  deriving DecidableEq

/-- The summary block of one listing item (`offer` in the Python code):
the texts of its `h3`, `h4` and `p` elements. -/
structure OfferSummary where
  h3 : String
  h4 : String
  p : String
  deriving DecidableEq

/-- The parsed detail-pane fragment (`inline_offer_block`), reduced to
the results of the structural selectors `grab_offer_info` and
`extract_funding` apply to it.  An `Option` field is `none` when the
single-result lookup (`select_one` / `find`) finds nothing and returns
`None`. -/
structure Fragment where
  /-- texts of `select('div.bg-primary-light')` (experience badges). -/
  bgPrimaryLight : List String
  /-- texts of `select('div.mt-3')` inside `select_one('div.mb-3')`
  (skills container); `none` when the container is missing. -/
  mb3Mt3 : Option (List String)
  /-- texts of `select('div.mt-3')` inside
  `find('div', attrs={'data-state': 'closed'})` (categories container);
  `none` when the container is missing. -/
  closedMt3 : Option (List String)
  /-- text of `select_one('p.mt-1')` (employee count). -/
  pMt1 : Option String
  /-- `href` of `select_one('a.text-stone-600')` (company website). -/
  aStone600 : Option String
  /-- texts of `select('div.py-5 h1')` (company-profile headings). -/
  py5H1 : List String
  /-- texts of `select('div.mb-1 div.mt-3')` (industries). -/
  mb1Mt3 : List String
  deriving DecidableEq

/-! ## Listing extraction (`grab_offer_info`, lines 138–168) -/

/-- Remove every occurrence of the pattern from the character list, as
`str.replace(pat, '')` does; the fuel argument (the list's length at the
call site) only makes the recursion structural. -/
def removeSub (pat : List Char) : Nat → List Char → List Char
  | _, [] => []
  | 0, cs => cs
  | fuel + 1, c :: cs =>
    if pat.isPrefixOf (c :: cs) then removeSub pat fuel ((c :: cs).drop pat.length)
    else c :: removeSub pat fuel cs

/-- Line 151–152: `.text.replace('employees', '').strip()`. -/
def cleanEmployeeCount (t : String) : String :=
  ⟨trimWs (removeSub "employees".data t.data.length t.data)⟩

/-- Lines 161–168: `company_stage` and `foundation_year` from the
`div.py-5 h1` headings.  When the selection is empty both stay `None`;
otherwise the stage is the first heading's text and the year is
`int(...)` of the *third* heading's text — a `ValueError` there is
caught and mapped to `None`, but a missing third heading raises an
uncaught `IndexError`. -/
def profileFields (py5H1 : List String) :
    Except PyErr (Option String × Option Int) :=
  if py5H1.isEmpty then .ok (none, none)
  else
    match py5H1[0]?, py5H1[2]? with
    | some stage, some t => .ok (some stage, pyIntParse t)
    | _, _ => .error .indexError

/-- Lines 138–168: the `job_data` dict.  The checks appear in the order
Python evaluates the expressions (the `offer_id` line, then the dict
entries left to right, then the profile block), so the error produced is
the one the Python run would raise first.  `AttributeError` models a
method call on a `None` lookup result, `TypeError` the `None['href']`
subscript. -/
def buildJobData (offer : OfferSummary) (frag : Fragment) (url : String) :
    Except PyErr JobListing :=
  match extractId url with
  | none => .error .attributeError
  | some offer_id =>
  match frag.mb3Mt3 with
  | none => .error .attributeError
  | some skills =>
  match frag.closedMt3 with
  | none => .error .attributeError
  | some cats =>
  match frag.pMt1 with
  | none => .error .attributeError
  | some emp =>
  match frag.aStone600 with
  | none => .error .typeError
  | some site =>
  match extractFundingOf frag.py5H1 with
  | .error e => .error e
  | .ok funding =>
  match profileFields frag.py5H1 with
  | .error e => .error e
  | .ok (stage, year) =>
    .ok {
      id := offer_id
      position_name := offer.h3
      company_name := offer.h4
      locations := offer.p
      experience_level :=
        if frag.bgPrimaryLight.isEmpty then .single "Intern"
        else .tags frag.bgPrimaryLight
      desired_skills := skills
      categories := cats
      employee_count := cleanEmployeeCount emp
      company_website := site
      company_stage := stage
      company_funding := funding
      foundation_year := year
      company_industries := frag.mb1Mt3 }

/-! ## Dedup store (lines 171–179)

Modelled from the spec: the `INSERT_DATA_QUERY` text and the
`job_offers` table definition live in `config.py`, which is not among
the repository's source files; per the spec the table is keyed uniquely
by `id`, a duplicate insert raises a distinguishable uniqueness
violation, and a connection whose transaction failed refuses further
statements until a rollback. -/

/-- Outcome of one append, as §4.3 of the spec names them. -/
inductive Outcome
  | inserted
  | alreadyExists
  deriving DecidableEq

/-- The connection/cursor pair's observable state: committed rows, the
current transaction's uncommitted rows, and whether the transaction is
in the aborted state a failed statement leaves behind. -/
structure DB where
  rows : List JobListing
  pending : List JobListing
  aborted : Bool
  deriving DecidableEq

/-- Modelled from the spec: `cur.execute(INSERT_DATA_QUERY, job_data)`
against a table keyed uniquely by `id` (`config.py` is not in the
sources).  On an aborted transaction the statement is refused; on a
duplicate `id` it raises `UniqueViolation` and aborts the transaction;
otherwise the row joins the transaction's pending writes. -/
def exec_insert (db : DB) (x : JobListing) : DB × Except PyErr Unit :=
  if db.aborted then (db, .error .inFailedTransaction)
  else if (db.rows ++ db.pending).any (fun r => r.id == x.id) then
    ({ db with aborted := true }, .error .uniqueViolation)
  else ({ db with pending := db.pending ++ [x] }, .ok ())

/-- `conn.commit()`: pending writes become durable rows. -/
def commitDB (db : DB) : DB :=
  { rows := db.rows ++ db.pending, pending := [], aborted := false }

/-- `conn.rollback()`: pending writes and the aborted flag are
discarded. -/
def rollbackDB (db : DB) : DB :=
  { db with pending := [], aborted := false }

/-- Lines 171–179: the insert protected by
`try ... except psycopg2.errors.UniqueViolation`, committing on success
and rolling back on a duplicate; any other database error is not caught
and propagates. -/
def appendStore (db : DB) (x : JobListing) : DB × Except PyErr Outcome :=
  match exec_insert db x with
  | (db1, .ok _) => (commitDB db1, .ok .inserted)
  | (db1, .error .uniqueViolation) => (rollbackDB db1, .ok .alreadyExists)
  | (db1, .error e) => (db1, .error e)

/-- The whole of `grab_offer_info`: build the `job_data` dict — a raised
exception propagates with the store untouched — then run the guarded
insert. -/
def grab_offer_info (offer : OfferSummary) (frag : Fragment) (url : String)
    (db : DB) : DB × Except PyErr Outcome :=
  match buildJobData offer frag url with
  | .error e => (db, .error e)
  | .ok jd => appendStore db jd

/-! ## Crawl driver (`scroll_and_load_jobs`, lines 88–122) -/

/-- One listing item as the driver sees it: its summary block, the
detail fragment its pane renders, and the detail-view URL. -/
structure Item where
  offer : OfferSummary
  frag : Fragment
  url : String
  deriving DecidableEq

/-- Line 92: `all_job_blocks[start_block_n : start_block_n + 21]` — the
window of at most 21 rendered item handles starting at the cursor. -/
def windowAt (rendered : List Item) (cursor : Nat) : List Item :=
  (rendered.drop cursor).take 21

/-- Lines 96–117, the `for offer in section_job_blocks:` body over a
window: visit each item, and advance the cursor (`start_block_n += 1`)
after each item whose visit returned — a raised exception propagates
out of the loop before the increment.  Result: final cursor, final
store, and whether an exception escaped. -/
def processWindow : List Item → Nat → DB → Nat × DB × Except PyErr Unit
  | [], n, db => (n, db, .ok ())
  | it :: rest, n, db =>
    match grab_offer_info it.offer it.frag it.url db with
    | (db1, .ok _) => processWindow rest (n + 1) db1
    | (db1, .error e) => (n, db1, .error e)

/-- The page-level effects one outer iteration can issue after its
window: the `PAGE_DOWN` scroll signal on the window's last item, or the
brief `time.sleep(0.5)` backoff when that element is transiently not
interactable. -/
inductive Action
  | scrollSignal
  | backoffSleep
  deriving DecidableEq

/-- What one iteration of the `while True:` loop decides: `done` for the
`break` on an empty window, `next` to continue with the new cursor, and
`failed` for an exception that escaped the item loop. -/
inductive StepResult
  | done
  | next (cursor : Nat)
  | failed (e : PyErr)
  deriving DecidableEq

/-- One outer iteration's full outcome. -/
structure StepOut where
  result : StepResult
  db : DB
  actions : List Action
  deriving DecidableEq

/-- Lines 89–122: one iteration of the `while True:` loop.  Re-query the
rendered items, slice the window at the cursor; an empty window breaks
out at once (lines 93–94), issuing nothing further; otherwise every
window item is visited, and then the scroll signal is sent — or, when
the scroll target is not interactable, the loop backs off briefly and
proceeds (lines 119–122). -/
def crawlStep (rendered : List Item) (cursor : Nat) (db : DB)
    (scrollReady : Bool) : StepOut :=
  let window := windowAt rendered cursor
  if window.isEmpty then ⟨.done, db, []⟩
  else
    match processWindow window cursor db with
    | (c1, db1, .ok _) =>
      ⟨.next c1, db1, if scrollReady then [.scrollSignal] else [.backoffSleep]⟩
    | (_, db1, .error e) => ⟨.failed e, db1, []⟩

/-! ## Session controller (`login`, lines 57–68) -/

/-- Where the login loop stands after some number of iterations:
`authenticated k` means the `break` fired after `k` timed-out polls
(each of which issued one manual-intervention prompt), `pending k`
means `k` polls have timed out and the loop is waiting again. -/
inductive LoginState
  | authenticated (prompts : Nat)
  | pending (prompts : Nat)
  deriving DecidableEq

/-- Lines 57–68: the `while True:` wait for the authenticated-UI marker
`a.rounded-full.bg-primary-light`.  `polls k` tells whether the
marker appeared within the `k`-th bounded 30-second wait; on `true` the
loop breaks, on timeout it prompts the operator and re-enters the same
wait.  The code has no other exit, so looking at any finite number
`fuel` of iterations either finds the break or leaves the loop still
pending. -/
def loginLoop (polls : Nat → Bool) : Nat → Nat → LoginState
  | 0, k => .pending k
  | fuel + 1, k =>
    if polls k then .authenticated k else loginLoop polls fuel (k + 1)

/-! ## Concrete inputs for the closed instances -/

/-- A summary block with plain texts. -/
def offerW : OfferSummary := ⟨"SWE Intern", "Acme", "NYC"⟩

/-- A detail URL holding the spec's example UUID between slashes. -/
def urlW : String :=
  "https://simplify.jobs/jobs/3fa85f64-5717-4562-b3fc-2c963f66afa6/overview"

/-- A well-formed detail fragment with no experience badge and no
company-profile block. -/
def fragNoBadge : Fragment :=
  { bgPrimaryLight := []
    mb3Mt3 := some ["Python"]
    closedMt3 := some ["Software Engineering"]
    pMt1 := some "11-50 employees"
    aStone600 := some "https://acme.example"
    py5H1 := []
    mb1Mt3 := [] }

/-- The listing `buildJobData` yields on `offerW`, `fragNoBadge`,
`urlW`. -/
def listingNoBadge : JobListing :=
  { id := "3fa85f64-5717-4562-b3fc-2c963f66afa6"
    position_name := "SWE Intern"
    company_name := "Acme"
    locations := "NYC"
    experience_level := .single "Intern"
    desired_skills := ["Python"]
    categories := ["Software Engineering"]
    employee_count := "11-50"
    company_website := "https://acme.example"
    company_stage := none
    company_funding := none
    foundation_year := none
    company_industries := [] }

/-- `fragNoBadge` with the skills container missing. -/
def fragNoSkills : Fragment := { fragNoBadge with mb3Mt3 := none }

/-- `fragNoBadge` with a profile block whose third heading reads
`123`. -/
def fragYear123 : Fragment :=
  { fragNoBadge with py5H1 := ["Seed", "$5M", "123"] }

/-- The listing `buildJobData` yields on `fragYear123`. -/
def listingYear123 : JobListing :=
  { listingNoBadge with
      company_stage := some "Seed"
      company_funding := some 5000000
      foundation_year := some 123 }

/-- `fragNoBadge` with a profile block whose third heading is not a
number. -/
def fragYearBad : Fragment :=
  { fragNoBadge with py5H1 := ["Seed", "$5M", "circa 1999"] }

/-- The listing `buildJobData` yields on `fragYearBad`. -/
def listingYearBad : JobListing :=
  { listingNoBadge with
      company_stage := some "Seed"
      company_funding := some 5000000 }

/-- `fragNoBadge` with a profile block whose funding heading is the
bare suffix letter `M`. -/
def fragFundingM : Fragment := { fragNoBadge with py5H1 := ["Seed", "M"] }

/-- A fresh connection over an empty table. -/
def dbEmpty : DB := ⟨[], [], false⟩

/-- A clean connection over a table already holding
`listingNoBadge`. -/
def dbDup : DB := ⟨[listingNoBadge], [], false⟩

/-- The rendered item whose visit produces `listingNoBadge`. -/
def itemW : Item := ⟨offerW, fragNoBadge, urlW⟩

/-! ## Theorems -/

/-- C4: the Funding Normalizer satisfies the spec's test vector:
`"$1.5M" ↦ 1 500 000`, `"$500K" ↦ 500 000`, `"$2B" ↦ 2 000 000 000`,
`"" ↦ null`, `"N/A" ↦ null`, `"1000" ↦ 1000` — cleaning to
alphanumerics plus the decimal point, applying the first matching
suffix of `K`, `M`, `B` in that fixed order, rounding down. -/
theorem C4_funding_vector :
    normalizeFundingText "$1.5M" = Except.ok (some 1500000) ∧
    normalizeFundingText "$500K" = Except.ok (some 500000) ∧
    normalizeFundingText "$2B" = Except.ok (some 2000000000) ∧
    normalizeFundingText "" = Except.ok none ∧
    normalizeFundingText "N/A" = Except.ok none ∧
    normalizeFundingText "1000" = Except.ok (some 1000) :=
  ⟨rfl, rfl, rfl, rfl, rfl, rfl⟩

/-- C5: evaluation of the code at the failing input.  On funding text
`"M"` the cleaned text contains the suffix `M`, the remainder after
removing it is empty, and `float('')` raises a `ValueError` that the
surrounding code does not catch (its `try/except` guards only the
no-suffix `int` parse).  The error escapes `extract_funding` and
crashes the item's `grab_offer_info` call, where the claim — backed by
the spec's SoftFieldFailure rule — requires `null`. -/
theorem C5_suffix_remainder_raises :
    normalizeFundingText "M" = Except.error PyErr.valueError ∧
    extractFundingOf fragFundingM.py5H1 = Except.error PyErr.valueError ∧
    buildJobData offerW fragFundingM urlW = Except.error PyErr.valueError :=
  ⟨rfl, rfl, rfl⟩

/-- C3 counterexample: on a well-formed fragment with no experience
badge the extracted listing's `experience_level` is the bare string
`'Intern'` (the Python conditional's `else 'Intern'` arm), not the
one-element sequence `["Intern"]` the claim states. -/
theorem C3_default_not_list_cex :
    ∃ l, buildJobData offerW fragNoBadge urlW = Except.ok l ∧
      l.experience_level = ExperienceLevel.single "Intern" ∧
      l.experience_level ≠ ExperienceLevel.tags ["Intern"] :=
  ⟨listingNoBadge, rfl, rfl, by decide⟩

/-- C6 counterexample: a fragment whose profile block's third heading
reads `123` yields a *populated* `foundation_year` of `123`, which is
not a 4-digit year — the code applies `int(...)` with no digit-count
validation. -/
theorem C6_three_digit_year_cex :
    ∃ l, buildJobData offerW fragYear123 urlW = Except.ok l ∧
      l.foundation_year = some 123 ∧ (123 : Int) < 1000 :=
  ⟨listingYear123, rfl, rfl, by decide⟩

/-- C1: Dedup Store `append` is idempotent.  Starting from a usable
connection (no aborted transaction, nothing pending), appending the
same listing again leaves the store in exactly the state the first
append produced; the second call answers `AlreadyExists` instead of
raising, and the local rollback leaves the connection usable (not
aborted, nothing pending) for the next append. -/
theorem C1_append_idempotent (db : DB) (x : JobListing)
    (hA : db.aborted = false) (hP : db.pending = []) :
    appendStore (appendStore db x).1 x =
      ((appendStore db x).1, Except.ok Outcome.alreadyExists) ∧
    (appendStore db x).1.aborted = false ∧
    (appendStore db x).1.pending = [] := by
  obtain ⟨rows, pending, aborted⟩ := db
  simp only at hA hP
  subst hA hP
  by_cases h : rows.any (fun r => r.id == x.id)
  · simp [appendStore, exec_insert, rollbackDB, h]
  · simp [appendStore, exec_insert, rollbackDB, commitDB, h]

/-- C1 witness: appending one concrete listing to the empty store twice
keeps the store exactly as the first append left it, with the second
call answering `AlreadyExists`. -/
theorem C1_append_idempotent_w :
    appendStore (appendStore dbEmpty listingNoBadge).1 listingNoBadge =
      ((appendStore dbEmpty listingNoBadge).1,
        Except.ok Outcome.alreadyExists) :=
  (C1_append_idempotent dbEmpty listingNoBadge rfl rfl).1

/-- C2: a structural extraction failure — detail URL without a
36-character hyphenated hex token between slashes, or a missing
skills/categories container — makes the item's visit raise: the store
comes back exactly as it was (no row written for the item), and every
window containing such an item makes the window loop end in a
propagated error, halting the crawl. -/
theorem C2_structural_failure_halts (offer : OfferSummary) (frag : Fragment)
    (url : String)
    (h : extractId url = none ∨ frag.mb3Mt3 = none ∨ frag.closedMt3 = none) :
    (∀ db : DB, ∃ e, grab_offer_info offer frag url db = (db, Except.error e)) ∧
    (∀ (pre post : List Item) (n : Nat) (db : DB), ∃ e n1 db1,
      processWindow (pre ++ ⟨offer, frag, url⟩ :: post) n db =
        (n1, db1, Except.error e)) := by
  have hb : ∃ e, buildJobData offer frag url = Except.error e := by
    unfold buildJobData
    rcases h with h | h | h
    · rw [h]; exact ⟨_, rfl⟩
    · cases hx : extractId url with
      | none => exact ⟨_, rfl⟩
      | some v => rw [h]; exact ⟨_, rfl⟩
    · cases hx : extractId url with
      | none => exact ⟨_, rfl⟩
      | some v =>
        cases hm : frag.mb3Mt3 with
        | none => exact ⟨_, rfl⟩
        | some skills => rw [h]; exact ⟨_, rfl⟩
  obtain ⟨e, he⟩ := hb
  have hg : ∀ db : DB, grab_offer_info offer frag url db = (db, Except.error e) := by
    intro db
    unfold grab_offer_info
    rw [he]
  refine ⟨fun db => ⟨e, hg db⟩, ?_⟩
  intro pre
  induction pre with
  | nil =>
    intro post n db
    refine ⟨e, n, db, ?_⟩
    simp only [List.nil_append, processWindow]
    rw [hg db]
  | cons it rest ih =>
    intro post n db
    simp only [List.cons_append, processWindow]
    rcases hgr : grab_offer_info it.offer it.frag it.url db with ⟨db1, r⟩
    cases r with
    | ok a =>
      obtain ⟨e1, n1, db2, hrec⟩ := ih post (n + 1) db1
      exact ⟨e1, n1, db2, hrec⟩
    | error e1 => exact ⟨e1, n, db1, rfl⟩

/-- C2 witness: with the skills container missing from the fragment the
visit raises and the store is untouched. -/
theorem C2_structural_failure_halts_w :
    ∃ e, grab_offer_info offerW fragNoSkills urlW dbEmpty =
      (dbEmpty, Except.error e) :=
  (C2_structural_failure_halts offerW fragNoSkills urlW
    (Or.inr (Or.inl rfl))).1 dbEmpty

/-- C3 (amended): when no experience badge is present in the detail
fragment, the extracted listing's `experience_level` is the bare string
`'Intern'` (one tag's worth of text, never an empty sequence) — not the
one-element list `["Intern"]`. -/
theorem C3_default_is_bare_string (offer : OfferSummary) (frag : Fragment)
    (url : String) (l : JobListing) (hb : frag.bgPrimaryLight = [])
    (hok : buildJobData offer frag url = Except.ok l) :
    l.experience_level = ExperienceLevel.single "Intern" := by
  unfold buildJobData at hok
  repeat' split at hok
  all_goals first
    | exact Except.noConfusion hok
    | (injection hok with h1; subst h1; simp_all)

/-- C3 witness: the amended default evaluated on the concrete
badge-free fragment. -/
theorem C3_default_is_bare_string_w :
    listingNoBadge.experience_level = ExperienceLevel.single "Intern" :=
  C3_default_is_bare_string offerW fragNoBadge urlW listingNoBadge rfl rfl

/-- C6 (amended): `foundation_year` is populated only when the profile
block is present, in which case it is the plain `int(...)` parse of the
block's third heading — the code performs no digit-count validation, so
the populated value is whatever integer that heading parses to, not
necessarily a 4-digit year; whenever extraction otherwise succeeds, a
third heading whose text fails integer parsing yields `none`, never a
raised error. -/
theorem C6_year_is_third_heading_parse (offer : OfferSummary)
    (frag : Fragment) (url : String) (l : JobListing)
    (hok : buildJobData offer frag url = Except.ok l) :
    (∀ y, l.foundation_year = some y →
      frag.py5H1 ≠ [] ∧ ∃ t, frag.py5H1[2]? = some t ∧ pyIntParse t = some y) ∧
    (∀ t, frag.py5H1[2]? = some t → pyIntParse t = none →
      l.foundation_year = none) := by
  unfold buildJobData at hok
  rcases hx : extractId url with _ | v
  · rw [hx] at hok; exact Except.noConfusion hok
  rw [hx] at hok
  rcases hm : frag.mb3Mt3 with _ | skills
  · rw [hm] at hok; exact Except.noConfusion hok
  rw [hm] at hok
  rcases hc : frag.closedMt3 with _ | cats
  · rw [hc] at hok; exact Except.noConfusion hok
  rw [hc] at hok
  rcases hp : frag.pMt1 with _ | emp
  · rw [hp] at hok; exact Except.noConfusion hok
  rw [hp] at hok
  rcases hs : frag.aStone600 with _ | site
  · rw [hs] at hok; exact Except.noConfusion hok
  rw [hs] at hok
  rcases hf : extractFundingOf frag.py5H1 with e | funding
  · rw [hf] at hok; exact Except.noConfusion hok
  rw [hf] at hok
  rcases hpr : profileFields frag.py5H1 with e | ⟨stage, year⟩
  · rw [hpr] at hok; exact Except.noConfusion hok
  rw [hpr] at hok
  injection hok with h1
  subst h1
  unfold profileFields at hpr
  by_cases hemp : frag.py5H1.isEmpty = true
  · rw [if_pos hemp] at hpr
    injection hpr with h2
    injection h2 with h3 h4
    constructor
    · intro y hy
      replace hy : year = some y := hy
      rw [← h4] at hy
      exact Option.noConfusion hy
    · intro t _ _
      show year = none
      exact h4.symm
  · rw [if_neg hemp] at hpr
    rcases h0 : frag.py5H1[0]? with _ | stage1
    · rw [h0] at hpr; exact Except.noConfusion hpr
    rcases h2q : frag.py5H1[2]? with _ | t1
    · rw [h0, h2q] at hpr; exact Except.noConfusion hpr
    rw [h0, h2q] at hpr
    injection hpr with h2
    injection h2 with h3 h4
    constructor
    · intro y hy
      replace hy : year = some y := hy
      refine ⟨?_, t1, rfl, ?_⟩
      · intro hnil
        exact hemp (by simp [hnil])
      · rw [h4, hy]
    · intro t ht hparse
      injection ht with ht1
      show year = none
      rw [← h4, ht1, hparse]

/-- C6 witness: on the concrete fragment whose third profile heading
reads `circa 1999`, the year parse fails and `foundation_year` is
`none` while extraction still succeeds. -/
theorem C6_year_is_third_heading_parse_w :
    listingYearBad.foundation_year = none :=
  (C6_year_is_third_heading_parse offerW fragYearBad urlW listingYearBad
    rfl).2 "circa 1999" rfl rfl

/-- Helper: a window pass that returns without a raised exception
advanced the cursor once per item. -/
theorem processWindow_length_of_ok (items : List Item) :
    ∀ (n : Nat) (db : DB), (processWindow items n db).2.2 = Except.ok () →
      (processWindow items n db).1 = n + items.length := by
  induction items with
  | nil => intro n db _; simp [processWindow]
  | cons it rest ih =>
    intro n db h
    simp only [processWindow] at h ⊢
    rcases hg : grab_offer_info it.offer it.frag it.url db with ⟨db1, r⟩
    rw [hg] at h
    cases r with
    | ok a =>
      have := ih (n + 1) db1 h
      simp only [List.length_cons]
      omega
    | error e => simp at h

/-- Helper: however a window pass ends, the cursor never advances past
one step per item. -/
theorem processWindow_fst_le (items : List Item) :
    ∀ (n : Nat) (db : DB), (processWindow items n db).1 ≤ n + items.length := by
  induction items with
  | nil => intro n db; simp [processWindow]
  | cons it rest ih =>
    intro n db
    simp only [processWindow]
    rcases hg : grab_offer_info it.offer it.frag it.url db with ⟨db1, r⟩
    cases r with
    | ok a =>
      have := ih (n + 1) db1
      simp only [List.length_cons]
      omega
    | error e => simp

/-- C7: over a window of `N` items whose per-item protocol runs to
completion — duplicate-key hits included, since those are caught and
answered `AlreadyExists` — the cursor ends at its starting value plus
`N`: it advances by exactly one per item. -/
theorem C7_cursor_plus_window (items : List Item) (n : Nat) (db : DB)
    (h : (processWindow items n db).2.2 = Except.ok ()) :
    (processWindow items n db).1 = n + items.length :=
  processWindow_length_of_ok items n db h

/-- C7 witness: a two-item window in which both visits hit the
duplicate-key path (the store already holds the row) still moves the
cursor from 5 to 7. -/
theorem C7_cursor_plus_window_w :
    (processWindow [itemW, itemW] 5 dbDup).1 = 7 :=
  C7_cursor_plus_window [itemW, itemW] 5 dbDup rfl

/-- Helper: the outer loop's `break` fires exactly on an empty
window. -/
theorem crawlStep_done_iff (rendered : List Item) (cursor : Nat) (db : DB)
    (ready : Bool) :
    (crawlStep rendered cursor db ready).result = StepResult.done ↔
      windowAt rendered cursor = [] := by
  by_cases hw : windowAt rendered cursor = []
  · simp [crawlStep, hw]
  · have he : (windowAt rendered cursor).isEmpty = false := by
      simpa [List.isEmpty_iff] using hw
    simp only [crawlStep, he]
    rcases hp : processWindow (windowAt rendered cursor) cursor db with
      ⟨c1, db1, r⟩
    cases r <;> simp [hw]

/-- Helper: an empty window not only breaks the loop, it leaves the
store alone and issues no action. -/
theorem crawlStep_empty_window (rendered : List Item) (cursor : Nat)
    (db : DB) (ready : Bool) (hw : windowAt rendered cursor = []) :
    crawlStep rendered cursor db ready = ⟨StepResult.done, db, []⟩ := by
  simp [crawlStep, hw]

/-- C8: the crawl loop's `break` fires exactly when the window of items
starting at the cursor is empty — there is no other termination test,
no item or time cap — and in that final iteration no pagination/scroll
action is issued (the `break` precedes the `PAGE_DOWN` send). -/
theorem C8_empty_window_ends_crawl (rendered : List Item) (cursor : Nat)
    (db : DB) (ready : Bool) :
    ((crawlStep rendered cursor db ready).result = StepResult.done ↔
      windowAt rendered cursor = []) ∧
    (windowAt rendered cursor = [] →
      (crawlStep rendered cursor db ready).actions = []) :=
  ⟨crawlStep_done_iff rendered cursor db ready,
   fun hw => by rw [crawlStep_empty_window rendered cursor db ready hw]⟩

/-- C10: the Crawl Driver's fixed window size is 21 — the window is the
slice of rendered item handles from the cursor to cursor + 21, at most
21 items are processed per iteration, and the loop ends exactly when
the cursor reaches or passes the number of rendered items. -/
theorem C10_window_is_21 (rendered : List Item) (cursor : Nat) (db : DB)
    (ready : Bool) :
    windowAt rendered cursor = (rendered.drop cursor).take 21 ∧
    (windowAt rendered cursor).length ≤ 21 ∧
    ((crawlStep rendered cursor db ready).result = StepResult.done ↔
      rendered.length ≤ cursor) ∧
    (∀ c1, (crawlStep rendered cursor db ready).result = StepResult.next c1 →
      c1 ≤ cursor + 21) := by
  have hwin : windowAt rendered cursor = [] ↔ rendered.length ≤ cursor := by
    constructor
    · intro hw
      rcases List.take_eq_nil_iff.mp hw with h | h
      · exact absurd h (by decide)
      · exact List.drop_eq_nil_iff.mp h
    · intro hl
      simp [windowAt, List.drop_eq_nil_iff.mpr hl]
  refine ⟨rfl, ?_, ?_, ?_⟩
  · simp [windowAt]
  · exact (crawlStep_done_iff rendered cursor db ready).trans hwin
  · intro c1 hc
    by_cases hw : windowAt rendered cursor = []
    · rw [crawlStep_empty_window rendered cursor db ready hw] at hc
      exact StepResult.noConfusion hc
    · have he : (windowAt rendered cursor).isEmpty = false := by
        simpa [List.isEmpty_iff] using hw
      simp only [crawlStep, he] at hc
      rcases hp : processWindow (windowAt rendered cursor) cursor db with
        ⟨c2, db1, r⟩
      rw [hp] at hc
      cases r with
      | ok a =>
        have hle := processWindow_fst_le (windowAt rendered cursor) cursor db
        rw [hp] at hle
        have h21 : (windowAt rendered cursor).length ≤ 21 := by
          simp [windowAt]
        injection hc with hc1
        subst hc1
        simp only at hle
        omega
      | error e => exact StepResult.noConfusion hc

/-- Helper: the login loop reports `authenticated` only for an attempt
whose poll actually found the authenticated-UI marker. -/
theorem loginLoop_auth_requires_marker (polls : Nat → Bool) :
    ∀ (fuel k j : Nat), loginLoop polls fuel k = LoginState.authenticated j →
      polls j = true := by
  intro fuel
  induction fuel with
  | zero => intro k j h; exact LoginState.noConfusion h
  | succ f ih =>
    intro k j h
    by_cases hp : polls k
    · simp only [loginLoop, if_pos hp] at h
      injection h with h1
      subst h1
      exact hp
    · simp only [loginLoop, if_neg hp] at h
      exact ih (k + 1) j h

/-- Helper: while every poll times out, the loop keeps prompting and
re-entering the same wait — after any number of iterations it is still
pending, with one prompt issued per timeout. -/
theorem loginLoop_pending_of_no_marker (polls : Nat → Bool) :
    ∀ (fuel k : Nat), (∀ i, i < fuel → polls (k + i) = false) →
      loginLoop polls fuel k = LoginState.pending (k + fuel) := by
  intro fuel
  induction fuel with
  | zero => intro k _; simp [loginLoop]
  | succ f ih =>
    intro k h
    have h0 : polls k = false := by simpa using h 0 (Nat.succ_pos f)
    simp only [loginLoop, h0, Bool.false_eq_true, if_false]
    have := ih (k + 1) (fun i hi => by
      have := h (i + 1) (Nat.succ_lt_succ hi)
      simpa [Nat.add_assoc, Nat.add_comm 1 i] using this)
    rw [this]
    congr 1
    omega

/-- C9: the Session Controller never proceeds past login until the
authenticated-UI structural marker is confirmed: reaching
`authenticated` requires the marker to have appeared in some poll, and
as long as every poll times out the loop — viewed for any finite number
of iterations — is still pending after one manual-intervention prompt
per timeout, never abandoned and never treated as fatal. -/
theorem C9_login_gated_on_marker (polls : Nat → Bool) (fuel j : Nat) :
    (loginLoop polls fuel 0 = LoginState.authenticated j → polls j = true) ∧
    ((∀ i, i < fuel → polls i = false) →
      loginLoop polls fuel 0 = LoginState.pending fuel) := by
  constructor
  · exact loginLoop_auth_requires_marker polls fuel 0 j
  · intro h
    have := loginLoop_pending_of_no_marker polls fuel 0 (fun i hi => by
      simpa using h i hi)
    simpa using this

end SimplifyScraper
